import Mathlib

/-!
Verification development for the day-ahead electricity price dashboard
(`src/app.py`).  The definitions below are a shallow embedding of the
orchestration logic of the script: the fetch-and-normalize routine
`get_entsoe_data` (lines 64-113), the color-domain derivation for the
heatmap (lines 346-384), the spread labels (lines 328-329), the session
cache-busting counter (lines 60-61) and the memoization layer around the
fetch routine (line 64).

Conventions of the embedding:
  - timestamps are absolute minutes since the Unix epoch (`Int`); a
    pandas tz-aware `Timestamp` denotes an instant, so `tz_convert` is
    the identity on this representation;
  - prices are rationals (`Rat`); the float operations the script uses
    on them (min, max, abs, negation, subtraction) are exact, so the
    embedding is faithful on those operations;
  - the upstream client `query_day_ahead_prices` is an oracle passed in
    as a function argument; a call either returns a series (possibly
    empty), returns no data, or raises.
-/

set_option autoImplicit false
set_option linter.unusedVariables false

namespace EntsoeApp

/-- A civil calendar date, as produced by the `st.date_input` widget. -/
structure Date where
  year : Nat
  month : Nat
  day : Nat
deriving DecidableEq, Repr

def isLeapYear (y : Nat) : Bool :=
  y % 4 == 0 && (y % 100 != 0 || y % 400 == 0)

def daysInMonth (y m : Nat) : Nat :=
  if m = 2 then (if isLeapYear y then 29 else 28)
  else if m = 4 ∨ m = 6 ∨ m = 9 ∨ m = 11 then 30
  else 31

/-- The civil date one day later, as computed by `timedelta(days=1)`. -/
def nextDay (d : Date) : Date :=
  if d.day < daysInMonth d.year d.month then ⟨d.year, d.month, d.day + 1⟩
  else if d.month < 12 then ⟨d.year, d.month + 1, 1⟩
  else ⟨d.year + 1, 1, 1⟩

/-- Days from 1970-01-01 to the given civil date (standard civil-calendar
day-count algorithm, as used by the datetime stack the script relies on). -/
def daysFromCivil (d : Date) : Int :=
  let y : Nat := if d.month ≤ 2 then d.year - 1 else d.year
  let era : Nat := y / 400
  let yoe : Nat := y % 400
  let mp : Nat := (d.month + 9) % 12
  let doy : Nat := (153 * mp + 2) / 5 + d.day - 1
  let doe : Nat := yoe * 365 + yoe / 4 - yoe / 100 + doy
  ((era * 146097 + doe : Nat) : Int) - 719468

/-- Day of week of a civil date, 0 = Sunday (1970-01-01 was a Thursday). -/
def weekdaySun0 (d : Date) : Int :=
  (daysFromCivil d + 4) % 7

/-- Day-of-month of the last Sunday of a 31-day month. -/
def lastSundayDom (y m : Nat) : Nat :=
  31 - (weekdaySun0 ⟨y, m, 31⟩).toNat

def monthDayKey (m d : Nat) : Nat := m * 100 + d

/-- UTC offset, in minutes, in force at local midnight of the given civil
date in the reference time zone Europe/Brussels.  Mirrors the tz database
rules the script relies on through pandas (EU rule, in force since 1996):
daylight saving runs from 01:00 UTC on the last Sunday of March to
01:00 UTC on the last Sunday of October, so local midnight of the spring
transition day is still CET (+60) and local midnight of the autumn
transition day is still CEST (+120). -/
def utcOffsetAtMidnightMin (d : Date) : Int :=
  if monthDayKey 3 (lastSundayDom d.year 3) < monthDayKey d.month d.day ∧
      monthDayKey d.month d.day ≤ monthDayKey 10 (lastSundayDom d.year 10)
  then 120 else 60

/-- The instant (minutes since epoch) of local midnight of the given civil
date in Europe/Brussels: the value of the tz-aware
`pd.Timestamp(selected_day_dt)` of line 75. -/
def dayStartUTCMin (d : Date) : Int :=
  daysFromCivil d * 1440 - utcOffsetAtMidnightMin d

/-- Length, in minutes, of the local calendar day `[midnight, next midnight)`:
1440 normally, 1380 on the spring DST transition day, 1500 on the autumn one. -/
def dayLengthMinutes (d : Date) : Int :=
  dayStartUTCMin (nextDay d) - dayStartUTCMin d

/-- Grid step in minutes for a resolution code: line 106 selects the
hourly frequency for the code "PT60M" and the 15-minute one otherwise. -/
def resolutionStepMin (resCode : String) : Nat :=
  if resCode = "PT60M" then 60 else 15

/-- The expected timestamp grid of line 107: a left-inclusive
`pd.date_range` from `start_ts` to `end_ts` at `expected_freq`, with
tz-aware bounds, i.e. the fixed-step half-open sequence of instants from
local midnight (exclusive of the next local midnight). -/
def expectedGrid (d : Date) (resCode : String) : List Int :=
  let step := resolutionStepMin resCode
  (List.range ((dayLengthMinutes d).toNat / step)).map
    (fun i => dayStartUTCMin d + (i * step : Nat))

/-- Outcome of one call to `client_local.query_day_ahead_prices`
(lines 87-92): a returned time-indexed series (possibly empty), a `None`
result, or a raised exception carrying its message. -/
inductive QueryOutcome where
  | success (series : List (Int × Rat))
  | absent
  | raised (msg : String)
deriving DecidableEq, Repr

/-- A region counts as failed when the call raised, returned `None`, or
returned an empty series (lines 94 and 101). -/
def isFailure : QueryOutcome → Bool
  | QueryOutcome.success s => s.isEmpty
  | QueryOutcome.absent => true
  | QueryOutcome.raised _ => true

/-- Status messages appended to `status_messages`.  The embedding keeps the
message class, the region and (for exceptions) the error detail; the literal
f-string text around them (lines 85, 95, 99, 102) is presentation only. -/
inductive StatusMsg where
  | fetching (country : String)
  | warnNoData (country : String)
  | success (country : String)
  | error (country : String) (detail : String)
deriving DecidableEq, Repr

/-- Value of a pandas series at a timestamp, `NaN` (here `none`) when the
timestamp is not in the series index. -/
def lookupSeries (s : List (Int × Rat)) (t : Int) : Option Rat :=
  (s.find? (fun p => p.1 == t)).map Prod.snd

/-- Embedding of `final_df_cached`: row index plus named columns; a column
is a partial map from timestamp to price, `none` standing for a missing
cell (NaN). -/
structure DataFrame where
  index : List Int
  cols : List (String × (Int → Option Rat))

def emptyDF : DataFrame := ⟨[], []⟩

/-- Emptiness test `df.empty` of pandas: no rows or no columns. -/
def DataFrame.isEmpty (df : DataFrame) : Bool :=
  df.cols.isEmpty || df.index.isEmpty

def DataFrame.colNames (df : DataFrame) : List String :=
  df.cols.map Prod.fst

/-- Column assignment keeps the position of an existing column of the same
name and appends otherwise, as pandas does. -/
def replaceOrAppendCol (cols : List (String × (Int → Option Rat)))
    (c : String) (f : Int → Option Rat) : List (String × (Int → Option Rat)) :=
  match cols with
  | [] => [(c, f)]
  | (name, g) :: rest =>
      if name = c then (c, f) :: rest else (name, g) :: replaceOrAppendCol rest c f

/-- Column assignment `final_df_cached[country] = price_series` (line 98):
on a fully empty frame the assignment adopts the series index; otherwise
the series is aligned onto the existing row index (cells read through
`lookupSeries`). -/
def DataFrame.setCol (df : DataFrame) (c : String) (s : List (Int × Rat)) : DataFrame :=
  if df.cols.isEmpty then ⟨s.map Prod.fst, [(c, lookupSeries s)]⟩
  else ⟨df.index, replaceOrAppendCol df.cols c (lookupSeries s)⟩

/-- Reindexing `final_df_cached.reindex(expected_index)` (line 110): the
row index is replaced by the given grid; cells are read through the column
maps, so rows absent from a column read as missing. -/
def DataFrame.reindex (df : DataFrame) (idx : List Int) : DataFrame :=
  ⟨idx, df.cols⟩

/-- Accumulator of the per-region loop: table, failed list, status list. -/
structure FetchState where
  df : DataFrame
  failed : List String
  messages : List StatusMsg

/-- One iteration of the loop of lines 84-103 for one region. -/
def processCountry (q : String → QueryOutcome) (st : FetchState) (c : String) :
    FetchState :=
  let st1 : FetchState := { st with messages := st.messages ++ [StatusMsg.fetching c] }
  match q c with
  | QueryOutcome.raised m =>
      { st1 with failed := st1.failed ++ [c],
                 messages := st1.messages ++ [StatusMsg.error c m] }
  | QueryOutcome.absent =>
      { st1 with failed := st1.failed ++ [c],
                 messages := st1.messages ++ [StatusMsg.warnNoData c] }
  | QueryOutcome.success s =>
      if s.isEmpty then
        { st1 with failed := st1.failed ++ [c],
                   messages := st1.messages ++ [StatusMsg.warnNoData c] }
      else
        { st1 with df := st1.df.setCol c s,
                   messages := st1.messages ++ [StatusMsg.success c] }

/-- The loop `for country in selected_countries` of lines 84-103. -/
def fetchLoop (q : String → QueryOutcome) : List String → FetchState → FetchState
  | [], st => st
  | c :: rest, st => fetchLoop q rest (processCountry q st c)

/-- Messages one region contributes (the line 85 progress message followed
by the outcome message). -/
def perCountryMsgs (q : String → QueryOutcome) (c : String) : List StatusMsg :=
  StatusMsg.fetching c ::
    (match q c with
     | QueryOutcome.raised m => [StatusMsg.error c m]
     | QueryOutcome.absent => [StatusMsg.warnNoData c]
     | QueryOutcome.success s =>
         if s.isEmpty then [StatusMsg.warnNoData c] else [StatusMsg.success c])

/-- Resolution translation of lines 78-82. -/
def translatedResolution (resCode : String) : String :=
  if resCode = "PT60M" then "60min"
  else if resCode = "PT15M" then "15min"
  else resCode

/-- The per-region oracle obtained from the client oracle by fixing the
call arguments of lines 87-92: `start_ts` and `end_ts` (lines 75-76, the
half-open local day) and the translated resolution. -/
def qOf (selectedDay : Date) (resCode : String)
    (query : String → Int → Int → String → QueryOutcome) : String → QueryOutcome :=
  fun c => query c (dayStartUTCMin selectedDay) (dayStartUTCMin (nextDay selectedDay))
    (translatedResolution resCode)

/-- The function `get_entsoe_data` (lines 64-113).  `query` is the upstream client
oracle, taking the region, the start and end instants and the translated
resolution.  The `cacheBuster` argument is part of the signature purely for
cache keying, as in the source.  The index conversion of line 109
(`tz_convert`) is the identity on instants and so does not appear. -/
def getEntsoeData (selectedDay : Date) (selectedCountries : List String)
    (apiToken : String) (resCode : String) (cacheBuster : Nat)
    (query : String → Int → Int → String → QueryOutcome) : FetchState :=
  let st := fetchLoop (qOf selectedDay resCode query) selectedCountries ⟨emptyDF, [], []⟩
  if st.df.isEmpty then st
  else { st with df := st.df.reindex (expectedGrid selectedDay resCode) }

/-- Python `str.replace(pat, rep)` on character lists: every non-overlapping
occurrence of `pat`, scanning left to right, is replaced by `rep`.  Written
with a fuel argument (the length of the scanned list suffices) so that it is
structurally recursive and reduces inside the kernel.  The `pat = []` edge
case of Python is not reproduced; the script only ever uses `pat = "_r"`. -/
def replaceAllAux (pat rep : List Char) : Nat → List Char → List Char
  | 0, s => s
  | _ + 1, [] => []
  | fuel + 1, c :: rest =>
      if pat ≠ [] ∧ pat.isPrefixOf (c :: rest) then
        rep ++ replaceAllAux pat rep fuel ((c :: rest).drop pat.length)
      else
        c :: replaceAllAux pat rep fuel rest

def replaceAll (s pat rep : String) : String :=
  String.mk (replaceAllAux pat.data rep.data s.data.length s.data)

/-- Line 357: the hardcoded membership list of diverging colorscales. -/
def divergingScalesList : List String :=
  ["Default", "Picnic", "PRGn", "RdBu", "balance", "Temps"]

/-- Line 356: `selected_colorscale_name.replace("_r", "")`. -/
def baseColorscaleName (name : String) : String :=
  replaceAll name "_r" ""

/-- Line 358: `base_colorscale_name in diverging_scales_list`. -/
def isDivergingScale (name : String) : Bool :=
  divergingScalesList.contains (baseColorscaleName name)

/-- Minimum `final_df.values.min()` over the cell values (line 347); the script only
evaluates it on a non-empty frame, the `[]` default is never reached there. -/
def dataMin : List Rat → Rat
  | [] => 0
  | x :: xs => xs.foldl min x

/-- Maximum `final_df.values.max()` over the cell values (line 348). -/
def dataMax : List Rat → Rat
  | [] => 0
  | x :: xs => xs.foldl max x

/-- The derived `(plot_zmin, plot_zmax, plot_zmid)` triple. -/
structure ColorDomain where
  zmin : Rat
  zmax : Rat
  zmid : Option Rat
deriving DecidableEq, Repr

/-- Lines 346-384: dynamic color-domain derivation.  The diverging branch
has no final `else` in the source; falling through keeps the initial values
`(data_zmin, data_zmax, None)` of lines 350-352 (that case is unreachable
because the three guards are exhaustive). -/
def plotDomain (schemeName : String) (values : List Rat) : ColorDomain :=
  let data_zmin := dataMin values
  let data_zmax := dataMax values
  if isDivergingScale schemeName then
    if data_zmin < 0 ∧ 0 < data_zmax then
      let max_abs_val := max |data_zmin| |data_zmax|
      ⟨-max_abs_val, max_abs_val, some 0⟩
    else if 0 ≤ data_zmin then ⟨0, data_zmax, none⟩
    else if data_zmax ≤ 0 then ⟨data_zmin, 0, none⟩
    else ⟨data_zmin, data_zmax, none⟩
  else
    if 0 ≤ data_zmin then ⟨0, data_zmax, none⟩
    else if data_zmax ≤ 0 then ⟨data_zmin, 0, none⟩
    else ⟨data_zmin, data_zmax, none⟩

/-- Round half to even to an integer, the tie rule of `numpy.round` which
backs the pandas `.round` calls of the script. -/
def roundHalfEvenInt (x : Rat) : Int :=
  let f := Rat.floor x
  let r := x - (f : Rat)
  if r < 1/2 then f
  else if 1/2 < r then f + 1
  else if f % 2 = 0 then f else f + 1

/-- Rounding `.round(1)` of a value to one decimal place (line 328). -/
def round1 (x : Rat) : Rat :=
  (roundHalfEvenInt (10 * x) : Rat) / 10

/-- Decimal rendering of `n` tenths with one digit after the point: the
`str()` image of a one-decimal float (`15.0`, `-3.2`, ...). -/
def fmtTenths (n : Int) : String :=
  let a := n.natAbs
  let s := toString (a / 10) ++ "." ++ toString (a % 10)
  if n < 0 then "-" ++ s else s

/-- String image of a multiple of one tenth, as interpolated by the
f-string of line 329. -/
def ratToStr1 (q : Rat) : String :=
  fmtTenths (Rat.floor (10 * q))

/-- The values present in one column of the frame: the cells of the rows of
the index, skipping missing cells, as pandas aggregations do. -/
def colValues (df : DataFrame) (f : Int → Option Rat) : List Rat :=
  df.index.filterMap f

/-- Lines 328-329: `spreads = (final_df.max() - final_df.min()).round(1)` and
`new_labels = [f"{country}<br>{spread}" for country, spread in zip(...)]`.
The spread series is indexed by the columns, so the zip pairs each column
with its own spread. -/
def newLabels (df : DataFrame) : List String :=
  df.cols.map (fun p =>
    p.1 ++ "<br>" ++ ratToStr1 (round1 (dataMax (colValues df p.2) - dataMin (colValues df p.2))))


/-- The tuple of arguments of `get_entsoe_data`, which is the cache key of
the `@st.cache_data(ttl=3600)` decorator of line 64. -/
structure CacheKey where
  selectedDay : Date
  selectedCountries : List String
  apiToken : String
  resCode : String
  cacheBuster : Nat
deriving DecidableEq, Repr

/-- TTL, in seconds, of the cache decorator (line 64). -/
def cacheTTL : Nat := 3600

/-- Memoization table: key, storage time (seconds), stored value. -/
structure CacheState (α : Type) where
  entries : List (CacheKey × Nat × α)

def cacheLookup {α : Type} (entries : List (CacheKey × Nat × α)) (k : CacheKey) :
    Option (Nat × α) :=
  (entries.find? (fun e => decide (e.1 = k))).map Prod.snd

/-- Modelled from the spec: the memoization semantics of the caching
decorator applied to `get_entsoe_data` (the decorator itself is an external
framework facility, described in the spec as "a pure function with an
explicit memoization layer keyed by a tuple of all inputs plus an explicit
cache epoch" with "a bounded freshness window").  A call with a key stored
less than `cacheTTL` ago returns the stored value without invoking the
underlying function; otherwise the underlying function runs and its result
is stored.  The returned flag records whether the underlying function (and
hence the upstream provider) was invoked. -/
def cachedFetch {α : Type} (fetch : CacheKey → α) (cs : CacheState α)
    (k : CacheKey) (now : Nat) : α × CacheState α × Bool :=
  match cacheLookup cs.entries k with
  | some (t, v) =>
      if now - t < cacheTTL then (v, cs, false)
      else ((fetch k), ⟨(k, now, fetch k) :: cs.entries⟩, true)
  | none => ((fetch k), ⟨(k, now, fetch k) :: cs.entries⟩, true)

/-- The user actions offered by the sidebar and the chart controls. -/
inductive UserAction where
  | refresh
  | selectDate (d : Date)
  | selectRegions (rs : List String)
  | selectResolutionChoice (resCode : String)
  | selectColorscale (name : String)
  | toggleReverseColors
  | toggleHeatmap
  | toggleDataTable
deriving DecidableEq, Repr

/-- The session-scoped state relevant here: `st.session_state.cache_buster`. -/
structure SessionState where
  cache_buster : Nat
deriving DecidableEq, Repr

/-- Lines 60-61: the counter is created at 0 when absent and left alone
when already present. -/
def initSession (existing : Option SessionState) : SessionState :=
  match existing with
  | some s => s
  | none => ⟨0⟩

/-- Modelled from the spec: the manual refresh action ("a manual refresh
action that increments the cache-busting counter and re-runs the pipeline").
The control itself lives in a repository file variant that is not under
src/; src/app.py initializes the counter (lines 60-61) and threads it into
the cached fetch (line 187).  Every other widget interaction leaves the
counter untouched, as in src/app.py, where no other code writes to it. -/
def applyAction (s : SessionState) (a : UserAction) : SessionState :=
  match a with
  | UserAction.refresh => ⟨s.cache_buster + 1⟩
  | _ => s

/-- Shape invariant of the accumulating frame: the row index is empty
exactly when there are no columns (true of the empty frame, and preserved
because a column is only ever inserted from a non-empty series). -/
def goodDF (df : DataFrame) : Prop := df.cols = [] ↔ df.index = []

/-- Concrete frame for evaluating the spread labels: one region "CZ" with
the three hourly prices 10, 25, 18. -/
def dfSpreadExample : DataFrame :=
  ⟨[0, 60, 120], [("CZ", lookupSeries [(0, 10), (60, 25), (120, 18)])]⟩

/-- Concrete cache keys and fetch function for evaluating the memoization
layer: the two keys differ only in the cache-busting counter. -/
def witnessKeyA : CacheKey := ⟨⟨2025, 6, 1⟩, ["CZ"], "token", "PT60M", 0⟩

def witnessKeyB : CacheKey := ⟨⟨2025, 6, 1⟩, ["CZ"], "token", "PT60M", 1⟩

def witnessFetch : CacheKey → Nat := fun k => k.cacheBuster + 7

/-! ### Lemmas about the per-region loop -/

theorem processCountry_failed (q : String → QueryOutcome) (st : FetchState) (c : String) :
    (processCountry q st c).failed
      = st.failed ++ (if isFailure (q c) then [c] else []) := by
  cases hq : q c with
  | raised m => simp [processCountry, isFailure, hq]
  | absent => simp [processCountry, isFailure, hq]
  | success s =>
      by_cases hs : s.isEmpty <;> simp [processCountry, isFailure, hq, hs]

theorem processCountry_messages (q : String → QueryOutcome) (st : FetchState) (c : String) :
    (processCountry q st c).messages = st.messages ++ perCountryMsgs q c := by
  cases hq : q c with
  | raised m => simp [processCountry, perCountryMsgs, hq]
  | absent => simp [processCountry, perCountryMsgs, hq]
  | success s =>
      by_cases hs : s.isEmpty <;> simp [processCountry, perCountryMsgs, hq, hs]

theorem fetchLoop_failed (q : String → QueryOutcome) (cs : List String) (st : FetchState) :
    (fetchLoop q cs st).failed = st.failed ++ cs.filter (fun c => isFailure (q c)) := by
  induction cs generalizing st with
  | nil => simp [fetchLoop]
  | cons c rest ih =>
      rw [fetchLoop, ih, processCountry_failed]
      by_cases hc : isFailure (q c) <;> simp [hc, List.filter_cons]

theorem fetchLoop_messages (q : String → QueryOutcome) (cs : List String) (st : FetchState) :
    (fetchLoop q cs st).messages = st.messages ++ cs.flatMap (perCountryMsgs q) := by
  induction cs generalizing st with
  | nil => simp [fetchLoop]
  | cons c rest ih =>
      rw [fetchLoop, ih, processCountry_messages]
      simp

theorem replaceOrAppendCol_names_of_not_mem (cols : List (String × (Int → Option Rat)))
    (c : String) (f : Int → Option Rat) (h : c ∉ cols.map Prod.fst) :
    (replaceOrAppendCol cols c f).map Prod.fst = cols.map Prod.fst ++ [c] := by
  induction cols with
  | nil => simp [replaceOrAppendCol]
  | cons p rest ih =>
      simp only [List.map_cons, List.mem_cons, not_or] at h
      rw [replaceOrAppendCol]
      rw [if_neg (fun hh => h.1 hh.symm)]
      simp [ih h.2]

theorem setCol_colNames_of_not_mem (df : DataFrame) (c : String) (s : List (Int × Rat))
    (h : c ∉ df.colNames) :
    (df.setCol c s).colNames = df.colNames ++ [c] := by
  unfold DataFrame.setCol
  by_cases he : df.cols.isEmpty
  · have : df.cols = [] := List.isEmpty_iff.mp he
    simp [DataFrame.colNames, he, this]
  · simp only [he, if_false, DataFrame.colNames]
    exact replaceOrAppendCol_names_of_not_mem _ _ _ h

theorem processCountry_colNames (q : String → QueryOutcome) (st : FetchState) (c : String)
    (h : c ∉ st.df.colNames) :
    (processCountry q st c).df.colNames
      = st.df.colNames ++ (if isFailure (q c) then [] else [c]) := by
  cases hq : q c with
  | raised m => simp [processCountry, isFailure, hq]
  | absent => simp [processCountry, isFailure, hq]
  | success s =>
      by_cases hs : s.isEmpty
      · simp [processCountry, isFailure, hq, hs]
      · simp only [processCountry, hq, hs, if_false, isFailure]
        exact setCol_colNames_of_not_mem _ _ _ h

theorem fetchLoop_colNames (q : String → QueryOutcome) (cs : List String) (st : FetchState)
    (hfresh : ∀ c ∈ cs, c ∉ st.df.colNames) (hnd : cs.Nodup) :
    (fetchLoop q cs st).df.colNames
      = st.df.colNames ++ cs.filter (fun c => !isFailure (q c)) := by
  induction cs generalizing st with
  | nil => simp [fetchLoop]
  | cons c rest ih =>
      have hc : c ∉ st.df.colNames := hfresh c (List.mem_cons_self c rest)
      have hnames := processCountry_colNames q st c hc
      have hfresh' : ∀ d ∈ rest, d ∉ (processCountry q st c).df.colNames := by
        intro d hd
        rw [hnames]
        simp only [List.mem_append]
        push_neg
        refine ⟨hfresh d (List.mem_cons_of_mem c hd), ?_⟩
        by_cases hf : isFailure (q c) <;> simp [hf]
        exact fun hdc => (List.nodup_cons.mp hnd).1 (hdc ▸ hd)
      rw [fetchLoop, ih _ hfresh' (List.nodup_cons.mp hnd).2, hnames]
      by_cases hf : isFailure (q c) <;> simp [hf, List.filter_cons]

theorem replaceOrAppendCol_ne_nil (cols : List (String × (Int → Option Rat)))
    (c : String) (f : Int → Option Rat) :
    replaceOrAppendCol cols c f ≠ [] := by
  cases cols with
  | nil => simp [replaceOrAppendCol]
  | cons p rest =>
      rw [replaceOrAppendCol]
      by_cases hp : p.1 = c <;> simp [hp]

theorem setCol_cols_ne_nil (df : DataFrame) (c : String) (s : List (Int × Rat)) :
    (df.setCol c s).cols ≠ [] := by
  unfold DataFrame.setCol
  by_cases he : df.cols.isEmpty
  · simp [he]
  · simp only [he, if_false]
    exact replaceOrAppendCol_ne_nil _ _ _

theorem setCol_good (df : DataFrame) (c : String) (s : List (Int × Rat))
    (hs : s ≠ []) (h : goodDF df) :
    goodDF (df.setCol c s) := by
  unfold DataFrame.setCol goodDF
  by_cases he : df.cols.isEmpty
  · simp [he, hs]
  · have hcols : df.cols ≠ [] := by simpa [List.isEmpty_iff] using he
    have hidx : df.index ≠ [] := fun hi => hcols (h.mpr hi)
    simp only [he, if_false]
    constructor
    · intro habs
      exact absurd habs (replaceOrAppendCol_ne_nil _ _ _)
    · intro habs
      exact absurd habs hidx

theorem processCountry_good (q : String → QueryOutcome) (st : FetchState) (c : String)
    (h : goodDF st.df) : goodDF (processCountry q st c).df := by
  cases hq : q c with
  | raised m => simpa [processCountry, hq] using h
  | absent => simpa [processCountry, hq] using h
  | success s =>
      by_cases hs : s.isEmpty
      · simpa [processCountry, hq, hs] using h
      · have hs' : s ≠ [] := by simpa [List.isEmpty_iff] using hs
        simpa [processCountry, hq, hs] using setCol_good st.df c s hs' h

theorem fetchLoop_good (q : String → QueryOutcome) (cs : List String) (st : FetchState)
    (h : goodDF st.df) : goodDF (fetchLoop q cs st).df := by
  induction cs generalizing st with
  | nil => simpa [fetchLoop] using h
  | cons c rest ih => exact ih _ (processCountry_good q st c h)

theorem fetchLoop_cols_ne_nil_mono (q : String → QueryOutcome) (cs : List String)
    (st : FetchState) (h : st.df.cols ≠ []) : (fetchLoop q cs st).df.cols ≠ [] := by
  induction cs generalizing st with
  | nil => simpa [fetchLoop] using h
  | cons c rest ih =>
      refine ih _ ?_
      cases hq : q c with
      | raised m => simpa [processCountry, hq] using h
      | absent => simpa [processCountry, hq] using h
      | success s =>
          by_cases hs : s.isEmpty
          · simpa [processCountry, hq, hs] using h
          · simp only [processCountry, hq, hs, if_false]
            exact setCol_cols_ne_nil _ _ _

theorem fetchLoop_cols_ne_nil_of_success (q : String → QueryOutcome) (cs : List String)
    (st : FetchState) (c : String) (hc : c ∈ cs) (hok : isFailure (q c) = false) :
    (fetchLoop q cs st).df.cols ≠ [] := by
  induction cs generalizing st with
  | nil => cases hc
  | cons d rest ih =>
      rw [fetchLoop]
      rcases List.mem_cons.mp hc with hdc | hmem
      · subst hdc
        apply fetchLoop_cols_ne_nil_mono
        cases hq : q c with
        | raised m => rw [hq] at hok; simp [isFailure] at hok
        | absent => rw [hq] at hok; simp [isFailure] at hok
        | success s =>
            have hs : s.isEmpty = false := by
              rw [hq] at hok; simpa [isFailure] using hok
            simp only [processCountry, hq, hs, if_neg Bool.false_ne_true]
            exact setCol_cols_ne_nil _ _ _
      · exact ih _ hmem

/-! ### Lemmas about data minimum and maximum -/

theorem foldl_min_le_init (a : Rat) (l : List Rat) : l.foldl min a ≤ a := by
  induction l generalizing a with
  | nil => simp
  | cons x xs ih => exact le_trans (ih (min a x)) (min_le_left a x)

theorem init_le_foldl_max (a : Rat) (l : List Rat) : a ≤ l.foldl max a := by
  induction l generalizing a with
  | nil => simp
  | cons x xs ih => exact le_trans (le_max_left a x) (ih (max a x))

theorem dataMin_le_dataMax (l : List Rat) (h : l ≠ []) : dataMin l ≤ dataMax l := by
  cases l with
  | nil => exact absurd rfl h
  | cons x xs =>
      exact le_trans (foldl_min_le_init x xs) (init_le_foldl_max x xs)

/-! ### Claim theorems: color-domain derivation -/

/-- C3: for a non-empty value list with minimum m and maximum M and a
scheme classified as diverging, the derived color domain is
(-max(|m|,|M|), 0, +max(|m|,|M|)) when m < 0 < M, (0, M, no midpoint)
when m ≥ 0, and (m, 0, no midpoint) when M ≤ 0. -/
theorem claim3_diverging_color_domain (schemeName : String) (values : List Rat)
    (hne : values ≠ []) (hdiv : isDivergingScale schemeName = true) :
    (dataMin values < 0 → 0 < dataMax values →
        plotDomain schemeName values
          = ⟨-(max |dataMin values| |dataMax values|),
              max |dataMin values| |dataMax values|, some 0⟩) ∧
    (0 ≤ dataMin values → plotDomain schemeName values = ⟨0, dataMax values, none⟩) ∧
    (dataMax values ≤ 0 → plotDomain schemeName values = ⟨dataMin values, 0, none⟩) := by
  have hmM := dataMin_le_dataMax values hne
  simp only [plotDomain, hdiv, if_true]
  refine ⟨?_, ?_, ?_⟩
  · intro h1 h2
    rw [if_pos ⟨h1, h2⟩]
  · intro h0
    rw [if_neg (fun hc => absurd h0 (not_le.mpr hc.1)), if_pos h0]
  · intro hM
    rw [if_neg (fun hc => absurd hc.2 (not_lt.mpr hM))]
    by_cases h0 : 0 ≤ dataMin values
    · have hm0 : dataMin values = 0 := le_antisymm (le_trans hmM hM) h0
      have hM0 : dataMax values = 0 := le_antisymm hM (hm0 ▸ hmM)
      rw [if_pos h0, hm0, hM0]
    · rw [if_neg h0, if_pos hM]

/-- C3 witness: diverging scheme with values [-5, 10] yields domain
(-10, 0, 10); diverging scheme with all-nonnegative values [2, 10]
yields (0, 10, no midpoint). -/
theorem claim3_diverging_color_domain_witness :
    isDivergingScale "RdBu" = true ∧
    plotDomain "RdBu" [-5, 10] = ⟨-10, 10, some 0⟩ ∧
    plotDomain "Picnic" [2, 10] = ⟨0, 10, none⟩ := by
  have h1 := claim3_diverging_color_domain "RdBu" [-5, 10] (by decide) (by decide)
  have h2 := claim3_diverging_color_domain "Picnic" [2, 10] (by decide) (by decide)
  refine ⟨by decide, ?_, ?_⟩
  · rw [h1.1 (by decide) (by decide)]
    decide
  · rw [h2.2.1 (by decide)]
    decide

/-- C4 counterexample: the scheme name "RdBu_r" is not in the fixed
diverging membership list, yet on mixed-sign values the code sets a
midpoint (diverging logic), because membership is tested on the name with
every occurrence of the substring "_r" removed. -/
theorem claim4_counterexample :
    "RdBu_r" ∉ divergingScalesList ∧
    (plotDomain "RdBu_r" [-5, 10]).zmid = some 0 := by
  exact ⟨by decide, by decide⟩

/-- C4 (amended): for a non-empty value list and a scheme whose name,
after removing every occurrence of the substring "_r", is not in the fixed
diverging membership list, the sequential rules apply and no midpoint is
set: m ≥ 0 gives (0, M); M ≤ 0 gives (m, 0); mixed sign gives (m, M). -/
theorem claim4_sequential_color_domain (schemeName : String) (values : List Rat)
    (hne : values ≠ []) (hseq : isDivergingScale schemeName = false) :
    (plotDomain schemeName values).zmid = none ∧
    (0 ≤ dataMin values → plotDomain schemeName values = ⟨0, dataMax values, none⟩) ∧
    (dataMax values ≤ 0 → plotDomain schemeName values = ⟨dataMin values, 0, none⟩) ∧
    (dataMin values < 0 → 0 < dataMax values →
        plotDomain schemeName values = ⟨dataMin values, dataMax values, none⟩) := by
  have hmM := dataMin_le_dataMax values hne
  simp only [plotDomain, hseq, Bool.false_eq_true, if_false]
  refine ⟨?_, ?_, ?_, ?_⟩
  · by_cases h0 : 0 ≤ dataMin values
    · rw [if_pos h0]
    · by_cases hM : dataMax values ≤ 0
      · rw [if_neg h0, if_pos hM]
      · rw [if_neg h0, if_neg hM]
  · intro h0
    rw [if_pos h0]
  · intro hM
    by_cases h0 : 0 ≤ dataMin values
    · have hm0 : dataMin values = 0 := le_antisymm (le_trans hmM hM) h0
      have hM0 : dataMax values = 0 := le_antisymm hM (hm0 ▸ hmM)
      rw [if_pos h0, hm0, hM0]
    · rw [if_neg h0, if_pos hM]
  · intro h1 h2
    rw [if_neg (not_le.mpr h1), if_neg (not_le.mpr h2)]

/-- C4 witness: the unlisted scheme "Viridis" on all-nonnegative values
[3, 10] yields (0, 10, no midpoint). -/
theorem claim4_sequential_color_domain_witness :
    isDivergingScale "Viridis" = false ∧
    plotDomain "Viridis" [3, 10] = ⟨0, 10, none⟩ := by
  have h := claim4_sequential_color_domain "Viridis" [3, 10] (by decide) (by decide)
  refine ⟨by decide, ?_⟩
  rw [h.2.1 (by decide)]
  decide

/-- C10: for any non-empty value list and any scheme, the derived color
domain contains the whole data range: zmin ≤ data minimum,
data maximum ≤ zmax, and zmin ≤ zmax. -/
theorem claim10_domain_contains_range (schemeName : String) (values : List Rat)
    (hne : values ≠ []) :
    (plotDomain schemeName values).zmin ≤ dataMin values ∧
    dataMax values ≤ (plotDomain schemeName values).zmax ∧
    (plotDomain schemeName values).zmin ≤ (plotDomain schemeName values).zmax := by
  have hmM := dataMin_le_dataMax values hne
  have hnegabs : -|dataMin values| ≤ dataMin values := neg_abs_le _
  have habsM : dataMax values ≤ |dataMax values| := le_abs_self _
  have hmaxl : |dataMin values| ≤ max |dataMin values| |dataMax values| := le_max_left _ _
  have hmaxr : |dataMax values| ≤ max |dataMin values| |dataMax values| := le_max_right _ _
  have h0max : (0 : Rat) ≤ max |dataMin values| |dataMax values| :=
    le_trans (abs_nonneg _) hmaxl
  by_cases hd : isDivergingScale schemeName = true
  · simp only [plotDomain, hd, if_true]
    by_cases hmix : dataMin values < 0 ∧ 0 < dataMax values
    · rw [if_pos hmix]
      exact ⟨le_trans (neg_le_neg hmaxl) hnegabs, le_trans habsM hmaxr,
        le_trans (neg_nonpos_of_nonneg h0max) h0max⟩
    · rw [if_neg hmix]
      by_cases hpos : 0 ≤ dataMin values
      · rw [if_pos hpos]
        exact ⟨hpos, le_refl _, le_trans hpos hmM⟩
      · rw [if_neg hpos]
        by_cases hneg : dataMax values ≤ 0
        · rw [if_pos hneg]
          exact ⟨le_refl _, hneg, le_trans hmM hneg⟩
        · rw [if_neg hneg]
          exact ⟨le_refl _, le_refl _, hmM⟩
  · simp only [plotDomain, hd, if_false]
    by_cases hpos : 0 ≤ dataMin values
    · rw [if_pos hpos]
      exact ⟨hpos, le_refl _, le_trans hpos hmM⟩
    · rw [if_neg hpos]
      by_cases hneg : dataMax values ≤ 0
      · rw [if_pos hneg]
        exact ⟨le_refl _, hneg, le_trans hmM hneg⟩
      · rw [if_neg hneg]
        exact ⟨le_refl _, le_refl _, hmM⟩

/-- C10 witness: sequential scheme "Fall" on mixed-sign values [-3, 7]. -/
theorem claim10_domain_contains_range_witness :
    (plotDomain "Fall" [-3, 7]).zmin ≤ dataMin [-3, 7] ∧
    dataMax [-3, 7] ≤ (plotDomain "Fall" [-3, 7]).zmax ∧
    (plotDomain "Fall" [-3, 7]).zmin ≤ (plotDomain "Fall" [-3, 7]).zmax :=
  claim10_domain_contains_range "Fall" [-3, 7] (by decide)

/-! ### Decomposition of the returned outcome -/

theorem getEntsoeData_colNames (selectedDay : Date) (selectedCountries : List String)
    (apiToken resCode : String) (cacheBuster : Nat)
    (query : String → Int → Int → String → QueryOutcome) :
    (getEntsoeData selectedDay selectedCountries apiToken resCode cacheBuster query).df.colNames
      = (fetchLoop (qOf selectedDay resCode query) selectedCountries ⟨emptyDF, [], []⟩).df.colNames := by
  unfold getEntsoeData
  dsimp only
  split <;> rfl

theorem getEntsoeData_failed (selectedDay : Date) (selectedCountries : List String)
    (apiToken resCode : String) (cacheBuster : Nat)
    (query : String → Int → Int → String → QueryOutcome) :
    (getEntsoeData selectedDay selectedCountries apiToken resCode cacheBuster query).failed
      = (fetchLoop (qOf selectedDay resCode query) selectedCountries ⟨emptyDF, [], []⟩).failed := by
  unfold getEntsoeData
  dsimp only
  split <;> rfl

theorem getEntsoeData_messages (selectedDay : Date) (selectedCountries : List String)
    (apiToken resCode : String) (cacheBuster : Nat)
    (query : String → Int → Int → String → QueryOutcome) :
    (getEntsoeData selectedDay selectedCountries apiToken resCode cacheBuster query).messages
      = (fetchLoop (qOf selectedDay resCode query) selectedCountries ⟨emptyDF, [], []⟩).messages := by
  unfold getEntsoeData
  dsimp only
  split <;> rfl

/-! ### Claim theorems: fetch-and-normalize -/

/-- C1 (amended): for every requested day and resolution, when at least one
region query succeeds with a non-empty series, the returned table's row
index exactly equals the expected time grid for that day and resolution,
computed independently of the upstream data as the fixed-step half-open
sequence of instants from local midnight to the next local midnight; on
days of standard length (no DST transition) that grid has 24 timestamps
for hourly and 96 for 15-minute resolution. -/
theorem claim1_normalized_index_is_expected_grid (selectedDay : Date)
    (selectedCountries : List String) (apiToken resCode : String) (cacheBuster : Nat)
    (query : String → Int → Int → String → QueryOutcome)
    (h : ∃ c ∈ selectedCountries, isFailure (qOf selectedDay resCode query c) = false) :
    (getEntsoeData selectedDay selectedCountries apiToken resCode cacheBuster query).df.index
        = expectedGrid selectedDay resCode ∧
    (dayLengthMinutes selectedDay = 1440 →
        (expectedGrid selectedDay resCode).length
          = if resCode = "PT60M" then 24 else 96) := by
  constructor
  · obtain ⟨c, hc, hok⟩ := h
    have hcols := fetchLoop_cols_ne_nil_of_success (qOf selectedDay resCode query)
      selectedCountries ⟨emptyDF, [], []⟩ c hc hok
    have hgood := fetchLoop_good (qOf selectedDay resCode query)
      selectedCountries ⟨emptyDF, [], []⟩ (by simp [goodDF, emptyDF])
    have hidx : (fetchLoop (qOf selectedDay resCode query)
        selectedCountries ⟨emptyDF, [], []⟩).df.index ≠ [] :=
      fun hi => hcols (hgood.mpr hi)
    have hempty : (fetchLoop (qOf selectedDay resCode query)
        selectedCountries ⟨emptyDF, [], []⟩).df.isEmpty = false := by
      simp [DataFrame.isEmpty, hcols, hidx]
    unfold getEntsoeData
    simp only [hempty, Bool.false_eq_true, if_false]
    rfl
  · intro hlen
    by_cases hr : resCode = "PT60M" <;>
      simp [expectedGrid, resolutionStepMin, hr, hlen]

/-- C1 witness: a standard-length day (2025-06-01), hourly resolution, one
region succeeding: the returned index is the expected grid, which has 24
entries. -/
theorem claim1_normalized_index_is_expected_grid_witness :
    (getEntsoeData ⟨2025, 6, 1⟩ ["CZ", "DE_LU"] "token" "PT60M" 0
        (fun c s e r => if c = "CZ" then QueryOutcome.success [(s, 10)]
          else QueryOutcome.raised "ConnectionError")).df.index
      = expectedGrid ⟨2025, 6, 1⟩ "PT60M" ∧
    (expectedGrid ⟨2025, 6, 1⟩ "PT60M").length = 24 := by
  have h := claim1_normalized_index_is_expected_grid ⟨2025, 6, 1⟩ ["CZ", "DE_LU"]
    "token" "PT60M" 0
    (fun c s e r => if c = "CZ" then QueryOutcome.success [(s, 10)]
      else QueryOutcome.raised "ConnectionError")
    ⟨"CZ", by decide, by decide⟩
  refine ⟨h.1, ?_⟩
  have h24 := h.2 (by decide)
  simpa using h24

/-- C1 counterexample: on the spring DST-transition day 2025-03-30 the
hourly expected grid has 23 timestamps, not 24, and the table returned for
a successful fetch has those 23 rows; the claim's fixed counts
(24 hourly / 96 quarter-hourly for every day) are false. -/
theorem claim1_counterexample :
    (expectedGrid ⟨2025, 3, 30⟩ "PT60M").length = 23 ∧
    (getEntsoeData ⟨2025, 3, 30⟩ ["CZ"] "token" "PT60M" 0
        (fun c s e r => QueryOutcome.success [(s, 10)])).df.index.length ≠ 24 := by
  constructor
  · decide
  · decide

/-- C2: with unique selected regions, a region whose query raises or
returns an empty or absent series never appears as a column of the
returned table and appears exactly once in the returned failed list. -/
theorem claim2_failed_region_never_column (selectedDay : Date)
    (selectedCountries : List String) (apiToken resCode : String) (cacheBuster : Nat)
    (query : String → Int → Int → String → QueryOutcome)
    (hnd : selectedCountries.Nodup) (r : String) (hr : r ∈ selectedCountries)
    (hfail : isFailure (qOf selectedDay resCode query r) = true) :
    r ∉ (getEntsoeData selectedDay selectedCountries apiToken resCode cacheBuster query).df.colNames ∧
    (getEntsoeData selectedDay selectedCountries apiToken resCode cacheBuster query).failed.count r = 1 := by
  constructor
  · rw [getEntsoeData_colNames]
    rw [fetchLoop_colNames _ _ _ (by simp [emptyDF, DataFrame.colNames]) hnd]
    intro hmem
    simp only [emptyDF, DataFrame.colNames, List.map_nil, List.nil_append] at hmem
    have := (List.mem_filter.mp hmem).2
    rw [hfail] at this
    simp at this
  · rw [getEntsoeData_failed, fetchLoop_failed]
    simp only [List.nil_append]
    have hmemf : r ∈ selectedCountries.filter
        (fun c => isFailure (qOf selectedDay resCode query c)) :=
      List.mem_filter.mpr ⟨hr, hfail⟩
    exact List.count_eq_one_of_mem (hnd.filter _) hmemf

/-- C2 witness: region "DE_LU" raising among ["CZ", "DE_LU"] is absent
from the columns and counted once in the failed list. -/
theorem claim2_failed_region_never_column_witness :
    "DE_LU" ∉ (getEntsoeData ⟨2025, 6, 1⟩ ["CZ", "DE_LU"] "token" "PT60M" 0
        (fun c s e r => if c = "CZ" then QueryOutcome.success [(s, 10)]
          else QueryOutcome.raised "ConnectionError")).df.colNames ∧
    (getEntsoeData ⟨2025, 6, 1⟩ ["CZ", "DE_LU"] "token" "PT60M" 0
        (fun c s e r => if c = "CZ" then QueryOutcome.success [(s, 10)]
          else QueryOutcome.raised "ConnectionError")).failed.count "DE_LU" = 1 :=
  claim2_failed_region_never_column ⟨2025, 6, 1⟩ ["CZ", "DE_LU"] "token" "PT60M" 0
    (fun c s e r => if c = "CZ" then QueryOutcome.success [(s, 10)]
      else QueryOutcome.raised "ConnectionError")
    (by decide) "DE_LU" (by decide) (by decide)

/-- C5: for any region list and any oracle behavior, the loop runs to
completion over all regions (a progress message is recorded for every one,
including those after failures), and every failing region is recorded both
in the failed list and as a warning or error status message. -/
theorem claim5_failures_recorded_loop_continues (selectedDay : Date)
    (selectedCountries : List String) (apiToken resCode : String) (cacheBuster : Nat)
    (query : String → Int → Int → String → QueryOutcome) :
    (∀ c ∈ selectedCountries, StatusMsg.fetching c ∈
        (getEntsoeData selectedDay selectedCountries apiToken resCode cacheBuster query).messages) ∧
    (∀ c ∈ selectedCountries, isFailure (qOf selectedDay resCode query c) = true →
        c ∈ (getEntsoeData selectedDay selectedCountries apiToken resCode cacheBuster query).failed ∧
        (StatusMsg.warnNoData c ∈
            (getEntsoeData selectedDay selectedCountries apiToken resCode cacheBuster query).messages ∨
          ∃ m, StatusMsg.error c m ∈
            (getEntsoeData selectedDay selectedCountries apiToken resCode cacheBuster query).messages)) := by
  rw [getEntsoeData_messages, getEntsoeData_failed, fetchLoop_messages, fetchLoop_failed]
  simp only [List.nil_append]
  constructor
  · intro c hc
    exact List.mem_flatMap.mpr ⟨c, hc, by simp [perCountryMsgs]⟩
  · intro c hc hfail
    refine ⟨List.mem_filter.mpr ⟨hc, hfail⟩, ?_⟩
    cases hq : qOf selectedDay resCode query c with
    | raised m =>
        exact Or.inr ⟨m, List.mem_flatMap.mpr ⟨c, hc, by simp [perCountryMsgs, hq]⟩⟩
    | absent =>
        exact Or.inl (List.mem_flatMap.mpr ⟨c, hc, by simp [perCountryMsgs, hq]⟩)
    | success s =>
        have hs : s.isEmpty = true := by
          rw [hq] at hfail
          simpa [isFailure] using hfail
        exact Or.inl (List.mem_flatMap.mpr ⟨c, hc, by simp [perCountryMsgs, hq, hs]⟩)

/-- C5 witness: with one success, one empty result and one exception, all
three regions get progress messages, and both failing regions land in the
failed list with a warning or error message. -/
theorem claim5_failures_recorded_loop_continues_witness :
    StatusMsg.fetching "AT" ∈ (getEntsoeData ⟨2025, 6, 1⟩ ["CZ", "PL", "AT"] "token" "PT60M" 0
        (fun c s e r => if c = "CZ" then QueryOutcome.success [(s, 10)]
          else if c = "PL" then QueryOutcome.absent
          else QueryOutcome.raised "HTTPError")).messages ∧
    "PL" ∈ (getEntsoeData ⟨2025, 6, 1⟩ ["CZ", "PL", "AT"] "token" "PT60M" 0
        (fun c s e r => if c = "CZ" then QueryOutcome.success [(s, 10)]
          else if c = "PL" then QueryOutcome.absent
          else QueryOutcome.raised "HTTPError")).failed := by
  have h := claim5_failures_recorded_loop_continues ⟨2025, 6, 1⟩ ["CZ", "PL", "AT"]
    "token" "PT60M" 0
    (fun c s e r => if c = "CZ" then QueryOutcome.success [(s, 10)]
      else if c = "PL" then QueryOutcome.absent
      else QueryOutcome.raised "HTTPError")
  exact ⟨h.1 "AT" (by decide), (h.2 "PL" (by decide) (by decide)).1⟩

/-- C9: with unique selected regions, the outcome partitions the regions:
each selected region appears either as a column of the returned table or
in the failed list, never in both; and the failed list is a sublist of the
selected regions, so it preserves request order. -/
theorem claim9_outcome_partition (selectedDay : Date)
    (selectedCountries : List String) (apiToken resCode : String) (cacheBuster : Nat)
    (query : String → Int → Int → String → QueryOutcome)
    (hnd : selectedCountries.Nodup) :
    (∀ c ∈ selectedCountries,
      (c ∈ (getEntsoeData selectedDay selectedCountries apiToken resCode cacheBuster query).df.colNames ∧
        c ∉ (getEntsoeData selectedDay selectedCountries apiToken resCode cacheBuster query).failed) ∨
      (c ∉ (getEntsoeData selectedDay selectedCountries apiToken resCode cacheBuster query).df.colNames ∧
        c ∈ (getEntsoeData selectedDay selectedCountries apiToken resCode cacheBuster query).failed)) ∧
    (getEntsoeData selectedDay selectedCountries apiToken resCode cacheBuster query).failed.Sublist
      selectedCountries := by
  rw [getEntsoeData_colNames, getEntsoeData_failed,
    fetchLoop_colNames _ _ _ (by simp [emptyDF, DataFrame.colNames]) hnd, fetchLoop_failed]
  simp only [emptyDF, DataFrame.colNames, List.map_nil, List.nil_append]
  constructor
  · intro c hc
    by_cases hf : isFailure (qOf selectedDay resCode query c) = true
    · refine Or.inr ⟨?_, List.mem_filter.mpr ⟨hc, hf⟩⟩
      intro hmem
      have := (List.mem_filter.mp hmem).2
      rw [hf] at this
      simp at this
    · have hf' : isFailure (qOf selectedDay resCode query c) = false :=
        Bool.eq_false_iff.mpr hf
      refine Or.inl ⟨List.mem_filter.mpr ⟨hc, by simp [hf']⟩, ?_⟩
      intro hmem
      have := (List.mem_filter.mp hmem).2
      rw [hf'] at this
      cases this
  · exact List.filter_sublist _

/-- C9 witness: with success for "CZ" and failure for "DE_LU", "CZ" is a
column and not failed, "DE_LU" is failed and not a column, and the failed
list is a sublist of the request order. -/
theorem claim9_outcome_partition_witness :
    ((("CZ" ∈ (getEntsoeData ⟨2025, 6, 1⟩ ["CZ", "DE_LU"] "token" "PT60M" 0
        (fun c s e r => if c = "CZ" then QueryOutcome.success [(s, 10)]
          else QueryOutcome.raised "ConnectionError")).df.colNames ∧
      "CZ" ∉ (getEntsoeData ⟨2025, 6, 1⟩ ["CZ", "DE_LU"] "token" "PT60M" 0
        (fun c s e r => if c = "CZ" then QueryOutcome.success [(s, 10)]
          else QueryOutcome.raised "ConnectionError")).failed) ∨
      ("CZ" ∉ (getEntsoeData ⟨2025, 6, 1⟩ ["CZ", "DE_LU"] "token" "PT60M" 0
        (fun c s e r => if c = "CZ" then QueryOutcome.success [(s, 10)]
          else QueryOutcome.raised "ConnectionError")).df.colNames ∧
      "CZ" ∈ (getEntsoeData ⟨2025, 6, 1⟩ ["CZ", "DE_LU"] "token" "PT60M" 0
        (fun c s e r => if c = "CZ" then QueryOutcome.success [(s, 10)]
          else QueryOutcome.raised "ConnectionError")).failed)) ∧
    (getEntsoeData ⟨2025, 6, 1⟩ ["CZ", "DE_LU"] "token" "PT60M" 0
        (fun c s e r => if c = "CZ" then QueryOutcome.success [(s, 10)]
          else QueryOutcome.raised "ConnectionError")).failed.Sublist ["CZ", "DE_LU"]) := by
  have h := claim9_outcome_partition ⟨2025, 6, 1⟩ ["CZ", "DE_LU"] "token" "PT60M" 0
    (fun c s e r => if c = "CZ" then QueryOutcome.success [(s, 10)]
      else QueryOutcome.raised "ConnectionError")
    (by decide)
  exact ⟨h.1 "CZ" (by decide), h.2⟩

/-! ### Claim theorems: labels, session counter, cache -/

/-- C8: the heatmap display label of every region column is the region
identifier followed by the column's (max - min) price spread rounded to
one decimal place. -/
theorem claim8_spread_labels (df : DataFrame) (i : Nat) (c : String)
    (f : Int → Option Rat) (h : df.cols[i]? = some (c, f)) :
    (newLabels df)[i]? = some (c ++ "<br>" ++
      ratToStr1 (round1 (dataMax (colValues df f) - dataMin (colValues df f)))) := by
  unfold newLabels
  rw [List.getElem?_map, h]
  rfl

/-- C8 witness: a region "CZ" with values [10, 25, 18] gets the label
"CZ<br>15.0", i.e. label suffix "15.0". -/
theorem claim8_spread_labels_witness :
    (newLabels dfSpreadExample)[0]? = some ("CZ" ++ "<br>" ++ "15.0") := by
  have h := claim8_spread_labels dfSpreadExample 0 "CZ"
    (lookupSeries [(0, 10), (60, 25), (120, 18)]) rfl
  rw [h]
  with_unfolding_all rfl

/-- C6: the manual refresh action increments the session cache-busting
counter by one, and no other user action changes the counter. -/
theorem claim6_refresh_increments_counter (s : SessionState) :
    (applyAction s UserAction.refresh).cache_buster = s.cache_buster + 1 ∧
    (∀ a : UserAction, a ≠ UserAction.refresh →
        (applyAction s a).cache_buster = s.cache_buster) := by
  constructor
  · rfl
  · intro a ha
    cases a with
    | refresh => exact absurd rfl ha
    | selectDate d => rfl
    | selectRegions rs => rfl
    | selectResolutionChoice r => rfl
    | selectColorscale n => rfl
    | toggleReverseColors => rfl
    | toggleHeatmap => rfl
    | toggleDataTable => rfl

/-- C6 witness: from a fresh session (counter 0), refresh yields 1 and a
colorscale change leaves it at 0. -/
theorem claim6_refresh_increments_counter_witness :
    (applyAction (initSession none) UserAction.refresh).cache_buster = 1 ∧
    (applyAction (initSession none) (UserAction.selectColorscale "Viridis")).cache_buster = 0 := by
  have h := claim6_refresh_increments_counter (initSession none)
  exact ⟨h.1, h.2 (UserAction.selectColorscale "Viridis") (by decide)⟩

/-- C7: starting from an empty cache, a second call with the identical key
within the freshness window returns the first call's result without
invoking the underlying fetch, and a call whose key differs only in the
cache-busting counter does invoke it. -/
theorem claim7_cache_hit_and_bust (α : Type) (fetch : CacheKey → α)
    (k k2 : CacheKey) (t0 t1 : Nat) (h0 : t0 ≤ t1) (hfresh : t1 - t0 < cacheTTL)
    (hday : k2.selectedDay = k.selectedDay)
    (hcs : k2.selectedCountries = k.selectedCountries)
    (htok : k2.apiToken = k.apiToken) (hres : k2.resCode = k.resCode)
    (hcb : k2.cacheBuster ≠ k.cacheBuster) :
    (cachedFetch fetch (cachedFetch fetch ⟨[]⟩ k t0).2.1 k t1).1
        = (cachedFetch fetch ⟨[]⟩ k t0).1 ∧
    (cachedFetch fetch (cachedFetch fetch ⟨[]⟩ k t0).2.1 k t1).2.2 = false ∧
    (cachedFetch fetch (cachedFetch fetch ⟨[]⟩ k t0).2.1 k2 t1).2.2 = true := by
  have hne : ¬(k = k2) := fun he => hcb (by rw [he])
  have hfirst : cachedFetch fetch ⟨[]⟩ k t0 = (fetch k, ⟨[(k, t0, fetch k)]⟩, true) := by
    simp [cachedFetch, cacheLookup]
  have hlk : cacheLookup [(k, t0, fetch k)] k = some (t0, fetch k) := by
    simp [cacheLookup]
  have hlk2 : cacheLookup [(k, t0, fetch k)] k2 = none := by
    simp [cacheLookup, hne]
  rw [hfirst]
  refine ⟨?_, ?_, ?_⟩
  · simp [cachedFetch, hlk, hfresh]
  · simp [cachedFetch, hlk, hfresh]
  · simp [cachedFetch, hlk2]

/-- C7 witness: concrete keys differing only in the counter, with call
times 5 and 10 (within the 3600-second window). -/
theorem claim7_cache_hit_and_bust_witness :
    (cachedFetch witnessFetch (cachedFetch witnessFetch ⟨[]⟩ witnessKeyA 5).2.1 witnessKeyA 10).1
        = (cachedFetch witnessFetch ⟨[]⟩ witnessKeyA 5).1 ∧
    (cachedFetch witnessFetch (cachedFetch witnessFetch ⟨[]⟩ witnessKeyA 5).2.1 witnessKeyA 10).2.2
        = false ∧
    (cachedFetch witnessFetch (cachedFetch witnessFetch ⟨[]⟩ witnessKeyA 5).2.1 witnessKeyB 10).2.2
        = true :=
  claim7_cache_hit_and_bust Nat witnessFetch witnessKeyA witnessKeyB 5 10
    (by decide) (by decide) rfl rfl rfl rfl (by decide)

example : daysFromCivil ⟨1970, 1, 1⟩ = 0 := by decide
example : daysFromCivil ⟨1970, 1, 4⟩ = 3 := by decide
example : weekdaySun0 ⟨1970, 1, 4⟩ = 0 := by decide
example : lastSundayDom 2025 3 = 30 := by decide
example : lastSundayDom 2025 10 = 26 := by decide
example : dayLengthMinutes ⟨2025, 6, 1⟩ = 1440 := by decide
example : dayLengthMinutes ⟨2025, 3, 30⟩ = 1380 := by decide
example : dayLengthMinutes ⟨2025, 10, 26⟩ = 1500 := by decide
example : (expectedGrid ⟨2025, 6, 1⟩ "PT60M").length = 24 := by decide
example : (expectedGrid ⟨2025, 6, 1⟩ "PT15M").length = 96 := by decide
example : (expectedGrid ⟨2025, 3, 30⟩ "PT60M").length = 23 := by decide

example : baseColorscaleName "RdBu_r" = "RdBu" := by decide
example : isDivergingScale "RdBu_r" = true := by decide
example : isDivergingScale "Viridis" = false := by decide
example : plotDomain "RdBu" [-5, 10] = ⟨-10, 10, some 0⟩ := by decide
example : plotDomain "RdBu" [2, 10] = ⟨0, 10, none⟩ := by decide
example : plotDomain "Viridis" [3, 10] = ⟨0, 10, none⟩ := by decide
example : ratToStr1 (round1 (25 - 10)) = "15.0" := by with_unfolding_all rfl

end EntsoeApp